import Mathlib

set_option maxHeartbeats 1000000

/-!
Shallow embedding of the shelly-transports-ts core: the lifecycle base class
`DeviceTransportBase` (begin/end with dedup and busy guard) and the WebSocket
transport `DeviceWsInTransport` (reconnect loop with backoff, digest-style
authentication handler, request interceptor).

Promises are modelled as explicit handles / settlement values; the abstract
`_onBegin` hook is instrumented by a connect-attempt counter; machine numbers
are Nat/Int; the possibly-async SHA-256 hash function is a pure
`String → String` (awaiting is transparent to the values computed).
-/

/-- A begin-operation handle: models the `Promise<void>` returned by
`_onBegin()` and cached in `_beginPromise`. `id` tracks identity (same
promise object or not); `rejected` records whether the promise has already
settled with a rejection. -/
structure Handle where
  id : Nat
  rejected : Bool
  deriving DecidableEq, Repr

/-- State of `DeviceTransportBase`: the `_isBusy` flag and the cached
`_beginPromise` (`none` models the JS `null`). `nextHandle` is the supply of
fresh promise identities; `connectAttempts` counts invocations of the
abstract `_onBegin()` hook (i.e. connect attempts started). -/
structure LifecycleState where
  isBusy : Bool
  beginPromise : Option Handle
  nextHandle : Nat
  connectAttempts : Nat
  deriving DecidableEq, Repr

/-- Lifecycle usage errors: `transportBusy` models
`throw new Error('Transport already busy')`, `transportNotActive` models
`throw new Error('Transport is not active')`. -/
inductive UsageError where
  | transportBusy
  | transportNotActive
  deriving DecidableEq, Repr

/-- `DeviceTransportBase.begin()`: if `_beginPromise` is set, return it
unchanged; else if `_isBusy`, throw; else set busy, invoke `_onBegin()`
(one fresh connect attempt, one fresh handle), cache and return the handle. -/
def begin (s : LifecycleState) : Except UsageError (Handle × LifecycleState) :=
  match s.beginPromise with
  | some h => .ok (h, s)
  | none =>
    if s.isBusy then
      .error .transportBusy
    else
      let h : Handle := { id := s.nextHandle, rejected := false }
      .ok (h, { s with
                isBusy := true,
                beginPromise := some h,
                nextHandle := s.nextHandle + 1,
                connectAttempts := s.connectAttempts + 1 })

/-- `DeviceTransportBase.end()` (named `endTransport` since `end` is a Lean
keyword): if not busy, throw `'Transport is not active'`; else clear the busy
flag and the cached begin promise and delegate to `_onEnd()`. -/
def endTransport (s : LifecycleState) : Except UsageError LifecycleState :=
  if !s.isBusy then
    .error .transportNotActive
  else
    .ok { s with isBusy := false, beginPromise := none }

/-- Models the event of the cached `_onBegin()` promise settling with a
rejection: the promise object's status changes, while the base class fields
(`_isBusy`, `_beginPromise`) are untouched — nothing in the source clears
`_beginPromise` on rejection. -/
def markRejected (s : LifecycleState) : LifecycleState :=
  match s.beginPromise with
  | some h => { s with beginPromise := some { h with rejected := true } }
  | none => s

/-- A sequence of `n` further `begin()` calls, collecting each caller's
outcome (the handle received, or the usage error thrown). -/
def iterBegin : Nat → LifecycleState → List (Except UsageError Handle) × LifecycleState
  | 0, s => ([], s)
  | n + 1, s =>
    match begin s with
    | .ok (h, s') =>
      let (l, s'') := iterBegin n s'
      (.ok h :: l, s'')
    | .error e =>
      let (l, s'') := iterBegin n s
      (.error e :: l, s'')

/-- The server-issued challenge frame captured from a 401 response and stored
in `_authFrame`: `{nonce, realm, nc}` (the spec calls `nc` the nonce count). -/
structure AuthFrame where
  nonce : Nat
  realm : String
  nc : Nat
  deriving DecidableEq, Repr

/-- Errors of the connect loop: `connectionExhausted r code` models
`reject(new Error(`WebSocket disconnected after ${r} retries (code=${code})`))`
(the spec's `ConnectionExhaustedError` carrying retry count and close code). -/
inductive ConnError where
  | connectionExhausted (retries : Nat) (code : Nat)
  deriving DecidableEq, Repr

/-- Authentication-handler errors: `missingHashFunction` models
`new Error('No SHA-256 function provided')` (spec: `MissingHashFunctionError`),
`missingChallenge` models `new Error('No challenge frame available')`
(spec: `MissingChallengeError`). -/
inductive AuthError where
  | missingHashFunction
  | missingChallenge
  deriving DecidableEq, Repr

/-- State of `DeviceWsInTransport`: `_forceDisconnect`, `_retries`,
`_maxRetries` (Int, since `-1` is the unlimited sentinel),
`_reconnectTimeout` (the pending timer, tagged with its delay), and
`_isReconnecting`; the auth fields `_authFrame`, `_userShaToken`,
`_sha256Func`; the module-level client nonce `cnonce` (0 models the JS
falsy `null`/unset value); and `settled`, the settlement of the promise
created by `_onBegin` (`none` while pending, first settle wins). -/
structure WsState where
  forceDisconnect : Bool
  retries : Nat
  maxRetries : Int
  reconnectTimer : Option Nat
  isReconnecting : Bool
  authFrame : Option AuthFrame
  userShaToken : String
  sha256Func : Option (String → String)
  cnonce : Nat
  settled : Option (Except ConnError Unit)

/-- The `DeviceWsInTransport` constructor: `_maxRetries` is
`options?.maxRetries || DEFAULT_RECONNECT_RETRIES` — the default 5 is
substituted when the option is absent or falsy (0); all other fields start
at their declared initial values. -/
def mkState (sha256Func : Option (String → String)) (maxRetries : Option Int) : WsState :=
  { forceDisconnect := false
    retries := 0
    maxRetries := match maxRetries with
      | some m => if m = 0 then 5 else m
      | none => 5
    reconnectTimer := none
    isReconnecting := false
    authFrame := none
    userShaToken := ""
    sha256Func := sha256Func
    cnonce := 0
    settled := none }

/-- Entry into `_onBegin()`'s first `connect()`: a fresh pending promise, and
`connect()` sets `_forceDisconnect = false` and `_isReconnecting = false`. -/
def onBeginStart (s : WsState) : WsState :=
  { s with forceDisconnect := false, isReconnecting := false, settled := none }

/-- Promise settlement: settling an already-settled promise is a no-op. -/
def settle (cur : Option (Except ConnError Unit)) (v : Except ConnError Unit) :
    Option (Except ConnError Unit) :=
  match cur with
  | some r => some r
  | none => some v

/-- Externally delivered socket events and the reconnect-timer firing, as
handled inside `_onBegin()`'s `connect()` closure. -/
inductive WsEvent where
  | onOpen
  | onClose (code : Nat)
  | onError
  | timerFire
  deriving DecidableEq, Repr

/-- One step of the connect loop in `_onBegin()`:
`onopen` resets `_retries` to 0, clears `_isReconnecting` and any pending
reconnect timer, and resolves the promise; `onerror` only logs; a timer
firing nulls `_reconnectTimeout` and calls `connect()` again (which resets
`_forceDisconnect` and `_isReconnecting`); `onclose` is ignored under forced
disconnect or while a reconnect is already scheduled, otherwise it either
increments `_retries` and schedules a reconnect after
`WS_RETRY_BASE_DELAY * max(_retries, DEFAULT_RECONNECT_RETRIES)` time-units
(when `_retries < _maxRetries` or `_maxRetries` is the `-1` sentinel), or —
retries exhausted — rejects the promise with the retry count and close code. -/
def wsStep (s : WsState) (e : WsEvent) : WsState :=
  match e with
  | .onOpen =>
    { s with retries := 0, isReconnecting := false, reconnectTimer := none,
             settled := settle s.settled (.ok ()) }
  | .onError => s
  | .timerFire =>
    match s.reconnectTimer with
    | none => s
    | some _ =>
      { s with reconnectTimer := none, forceDisconnect := false, isReconnecting := false }
  | .onClose code =>
    if s.forceDisconnect then s
    else if s.isReconnecting then s
    else if (s.retries : Int) < s.maxRetries ∨ s.maxRetries = -1 then
      let r := s.retries + 1
      { s with retries := r, isReconnecting := true,
               reconnectTimer := some (500 * max r 5) }
    else
      { s with settled := settle s.settled (.error (.connectionExhausted s.retries code)) }

/-- Folding a sequence of events through the connect loop. -/
def wsSteps (s : WsState) (es : List WsEvent) : WsState :=
  es.foldl wsStep s

/-- The auth block attached to an outgoing request by `_regenerateAuthFrames`:
the spread of the stored challenge frame and of the prepared partial frame,
with `nc` overridden by the caller-supplied value and the fixed
`username: 'admin'` (the spec's role name) and `algorithm: 'SHA-256'`.
The spec names `cnonce` the client nonce and `response` the proof. -/
structure AuthBlock where
  nonce : Nat
  realm : String
  nc : Nat
  cnonce : Nat
  response : String
  username : String
  algorithm : String
  deriving DecidableEq, Repr

/-- `prepareAuthPartialFrame(sha256, shaUserToken, nonce, nc)`: lazily
initialise the module-level client nonce from `Date.now()` (`cnonce0 = 0`
models the unset/falsy value, `now` the clock reading), then compute
`response = sha256(join(':', shaUserToken, nonce, nc, cnonce, 'auth',
sha256('dummy_method:dummy_uri')))`. Returns the client nonce used (which is
also the new module-level value) and the response. -/
def prepareAuthPartialFrame (sha256 : String → String) (shaUserToken : String)
    (nonce : Nat) (nc : Nat) (cnonce0 : Nat) (now : Nat) : Nat × String :=
  let cn := if cnonce0 = 0 then now else cnonce0
  let innerDigest := sha256 "dummy_method:dummy_uri"
  let response := sha256 (String.intercalate ":"
    [shaUserToken, toString nonce, toString nc, toString cn, "auth", innerDigest])
  (cn, response)

/-- `DeviceWsInTransport._regenerateAuthFrames(nc)`: throws
`missingHashFunction` if `_sha256Func` is null, `missingChallenge` if
`_authFrame` is null; otherwise builds the auth block from the stored frame
and `prepareAuthPartialFrame`, overriding `nc` with the argument and adding
`username: 'admin'`, `algorithm: 'SHA-256'`. Also returns the state with the
module-level client nonce updated. -/
def regenerateAuthFrames (s : WsState) (nc : Nat) (now : Nat) :
    Except AuthError (AuthBlock × WsState) :=
  match s.sha256Func with
  | none => .error .missingHashFunction
  | some fn =>
    match s.authFrame with
    | none => .error .missingChallenge
    | some f =>
      let pr := prepareAuthPartialFrame fn s.userShaToken f.nonce nc s.cnonce now
      .ok ({ nonce := f.nonce, realm := f.realm, nc := nc,
             cnonce := pr.1, response := pr.2,
             username := "admin", algorithm := "SHA-256" },
           { s with cnonce := pr.1 })

/-- `DeviceWsInTransport.authenticate(id, password)`: rejects with
`missingHashFunction` if `_sha256Func` is null, then with `missingChallenge`
if `_authFrame` is null; otherwise stores
`_userShaToken = sha256(join(':', 'admin', id, password))`. -/
def authenticate (s : WsState) (id : String) (password : String) :
    Except AuthError WsState :=
  match s.sha256Func with
  | none => .error .missingHashFunction
  | some fn =>
    match s.authFrame with
    | none => .error .missingChallenge
    | some _ =>
      .ok { s with userShaToken := fn (String.intercalate ":" ["admin", id, password]) }

/-- Outcome of the delegated `super.rpcRequest` call (the external RPC
runtime): success; a non-RpcError failure; or an RpcError with its `code`
and, for the catch-block's `JSON.parse(error.message)` /
`isRpcAuthResponse` analysis, `body`: `none` if the message is not valid
JSON (the parse would throw), `some none` if it parses but is not an auth
response, `some (some f)` if it decodes into the valid challenge `f`. -/
inductive ExtOutcome where
  | success
  | failNonRpc
  | failRpc (code : Int) (body : Option (Option AuthFrame))
  deriving DecidableEq, Repr

/-- Errors `rpcRequest` can reject with: an auth-regeneration error raised
while attaching the auth block, the external error rethrown unchanged, or
the error thrown by `JSON.parse` on a 401 whose message is not valid JSON. -/
inductive RpcReqError where
  | auth (e : AuthError)
  | external (o : ExtOutcome)
  | jsonParse
  deriving DecidableEq, Repr

/-- What the promise returned by `rpcRequest` does: resolves, rejects with an
error, or — the 401 branch's `return new Promise(() => {})` — stays pending
forever (never resolves, never rejects). -/
inductive RpcResult where
  | resolved
  | rejected (e : RpcReqError)
  | pending
  deriving DecidableEq, Repr

/-- The observable trace of one `rpcRequest` call: its result, the state
afterwards, and the auth block attached to `options.auth` when the call was
delegated to `super.rpcRequest` (`none` if no block was attached, or the
call never reached the delegation). -/
structure RpcCallTrace where
  result : RpcResult
  state : WsState
  sentAuth : Option AuthBlock

/-- The delegation and catch block of `rpcRequest`: on success return the
result; on a non-RpcError failure (or an RpcError with code ≠ 401) log and
rethrow; on a 401, `JSON.parse` the message (rejecting with the parse error
if it throws), capture the challenge wholesale into `_authFrame` when it is
a valid auth response, and in either parsed case return a forever-pending
promise. -/
def rpcDelegate (s : WsState) (sent : Option AuthBlock) (outcome : ExtOutcome) :
    RpcCallTrace :=
  match outcome with
  | .success => { result := .resolved, state := s, sentAuth := sent }
  | .failNonRpc =>
    { result := .rejected (.external .failNonRpc), state := s, sentAuth := sent }
  | .failRpc code body =>
    if code = 401 then
      match body with
      | none => { result := .rejected .jsonParse, state := s, sentAuth := sent }
      | some none => { result := .pending, state := s, sentAuth := sent }
      | some (some f) =>
        { result := .pending, state := { s with authFrame := some f }, sentAuth := sent }
    else
      { result := .rejected (.external (.failRpc code body)), state := s, sentAuth := sent }

/-- `DeviceWsInTransport.rpcRequest(method, params, options)`: if a challenge
frame is on file, read its `nc`, increment the stored `nc`, regenerate the
auth block with the pre-increment value (rejecting if that throws) and attach
it as `options.auth`; then delegate to `super.rpcRequest`, whose outcome is
handled by `rpcDelegate`. `now` is the clock reading used if the module-level
client nonce must be initialised. -/
def rpcRequest (s : WsState) (outcome : ExtOutcome) (now : Nat) : RpcCallTrace :=
  match s.authFrame with
  | some f =>
    let s1 := { s with authFrame := some { f with nc := f.nc + 1 } }
    match regenerateAuthFrames s1 f.nc now with
    | .error e => { result := .rejected (.auth e), state := s1, sentAuth := none }
    | .ok (block, s2) => rpcDelegate s2 (some block) outcome
  | none => rpcDelegate s none outcome

/-! ## Lifecycle controller properties -/

/-- Helper: a `begin()` call while a begin promise is cached returns that
very promise and leaves the state untouched. -/
theorem begin_of_stored (s : LifecycleState) (h : Handle)
    (hp : s.beginPromise = some h) : begin s = .ok (h, s) := by
  simp [begin, hp]

/-- Helper: any number of `begin()` calls while a begin promise is cached all
return that promise and leave the state untouched. -/
theorem iterBegin_stored (h : Handle) (n : Nat) (s : LifecycleState)
    (hp : s.beginPromise = some h) :
    iterBegin n s = (List.replicate n (.ok h), s) := by
  induction n with
  | zero => simp [iterBegin]
  | succ n ih => simp [iterBegin, begin_of_stored s h hp, ih, List.replicate_succ]

/-- Claim C1: for every sequence of `begin()` calls issued while a start
operation is outstanding (and `end()` has not been called), exactly one
connect attempt occurs, and every caller of `begin()` receives the very same
handle representing that single attempt's outcome: from an idle state, the
first `begin()` starts exactly one `_onBegin()` attempt, and all `n`
subsequent `begin()` calls return the same handle without changing the state
or starting further attempts. -/
theorem begin_dedup_single_attempt (s0 : LifecycleState)
    (hpromise : s0.beginPromise = none) (hbusy : s0.isBusy = false) (n : Nat) :
    ∃ hd s1, begin s0 = .ok (hd, s1) ∧
      s1.connectAttempts = s0.connectAttempts + 1 ∧
      iterBegin n s1 = (List.replicate n (.ok hd), s1) ∧
      (iterBegin n s1).2.connectAttempts = s0.connectAttempts + 1 := by
  have hb : begin s0 = .ok (⟨s0.nextHandle, false⟩,
      { s0 with isBusy := true, beginPromise := some ⟨s0.nextHandle, false⟩,
                nextHandle := s0.nextHandle + 1,
                connectAttempts := s0.connectAttempts + 1 }) := by
    simp [begin, hpromise, hbusy]
  have hiter := iterBegin_stored ⟨s0.nextHandle, false⟩ n
    { s0 with isBusy := true, beginPromise := some ⟨s0.nextHandle, false⟩,
              nextHandle := s0.nextHandle + 1,
              connectAttempts := s0.connectAttempts + 1 } rfl
  exact ⟨_, _, hb, rfl, hiter, by rw [hiter]⟩

/-- A concrete idle lifecycle state. -/
def idleSample : LifecycleState :=
  { isBusy := false, beginPromise := none, nextHandle := 0, connectAttempts := 0 }

/-- A concrete active lifecycle state: one begin attempt outstanding. -/
def activeSample : LifecycleState :=
  { isBusy := true, beginPromise := some ⟨0, false⟩, nextHandle := 1, connectAttempts := 1 }

/-- Witness for C1: from the concrete idle state, the first `begin()` and
three further calls all yield handle 0 and a single connect attempt. -/
theorem begin_dedup_single_attempt_witness :
    ∃ hd s1, begin idleSample = .ok (hd, s1) ∧
      s1.connectAttempts = idleSample.connectAttempts + 1 ∧
      iterBegin 3 s1 = (List.replicate 3 (.ok hd), s1) ∧
      (iterBegin 3 s1).2.connectAttempts = idleSample.connectAttempts + 1 :=
  begin_dedup_single_attempt idleSample rfl rfl 3

/-- Counterexample to claim C2: from a concrete active state, the first
`end()` succeeds (transitioning to idle), but the second `end()` in a row —
with no intervening `begin()` — does not complete successfully: it throws
`'Transport is not active'` (the spec's `UsageError`). -/
theorem end_twice_not_idempotent :
    endTransport activeSample =
      .ok { activeSample with isBusy := false, beginPromise := none } ∧
    endTransport { activeSample with isBusy := false, beginPromise := none } =
      .error .transportNotActive := ⟨rfl, rfl⟩

/-- Claim C2 (amended): `end()` invoked while idle always fails with a
`UsageError`; invoked while active it always transitions the transport to
idle — but calling `end()` twice in a row with no intervening `begin()` is
not idempotent: the second call fails with the same `UsageError`, because
the transport is by then idle. -/
theorem end_semantics (s : LifecycleState) :
    (s.isBusy = false → endTransport s = .error .transportNotActive) ∧
    (s.isBusy = true →
      endTransport s = .ok { s with isBusy := false, beginPromise := none } ∧
      endTransport { s with isBusy := false, beginPromise := none } =
        .error .transportNotActive) := by
  refine ⟨fun h => ?_, fun h => ⟨?_, ?_⟩⟩ <;> simp [endTransport, h]

/-- Witness for C2 (amended): `end()` on the concrete idle state fails with
the usage error. -/
theorem end_semantics_witness :
    endTransport idleSample = .error .transportNotActive :=
  (end_semantics idleSample).1 rfl

/-- A concrete active state whose outstanding begin promise has rejected. -/
def rejectedSample : LifecycleState := markRejected activeSample

/-- Claim C10: after a `begin()` whose start operation has already failed
(its cached handle rejected), and while `end()` has not been called, every
subsequent `begin()` returns that same rejected handle, initiates no new
connection attempt and changes no transport state; only after `end()`
discards the stored handle does `begin()` start a fresh attempt (a new
handle, and the connect-attempt count incremented). -/
theorem begin_after_rejected_dedup (s : LifecycleState) (hd : Handle)
    (hp : s.beginPromise = some hd) (hrej : hd.rejected = true)
    (hb : s.isBusy = true) :
    begin s = .ok (hd, s) ∧
    endTransport s = .ok { s with isBusy := false, beginPromise := none } ∧
    begin { s with isBusy := false, beginPromise := none } =
      .ok (⟨s.nextHandle, false⟩,
        { s with isBusy := true, beginPromise := some ⟨s.nextHandle, false⟩,
                 nextHandle := s.nextHandle + 1,
                 connectAttempts := s.connectAttempts + 1 }) := by
  refine ⟨begin_of_stored s hd hp, ?_, ?_⟩ <;> simp [begin, endTransport, hb]

/-- Witness for C10: the concrete rejected-promise state — `begin()` returns
the rejected handle unchanged; after `end()`, `begin()` starts attempt 2
with a fresh handle. -/
theorem begin_after_rejected_dedup_witness :
    begin rejectedSample = .ok (⟨0, true⟩, rejectedSample) ∧
    endTransport rejectedSample = .ok ⟨false, none, 1, 1⟩ ∧
    begin ⟨false, none, 1, 1⟩ = .ok (⟨1, false⟩, ⟨true, some ⟨1, false⟩, 2, 2⟩) :=
  begin_after_rejected_dedup rejectedSample ⟨0, true⟩ rfl rfl rfl

/-! ## Connection manager properties -/

/-- Claim C6: with `maxRetries = 3`, after three consecutive unexpected
closes with no successful open in between (each reconnect timer firing in
between), the fourth close rejects the pending begin operation with the
retry-exhaustion error carrying retry count 3 and the last close code; and a
successful open at any point resets the retry counter to 0. -/
theorem retry_exhaustion (c1 c2 c3 c4 : Nat) :
    (wsSteps (onBeginStart (mkState none (some 3)))
        [.onClose c1, .timerFire, .onClose c2, .timerFire, .onClose c3, .timerFire,
         .onClose c4]).settled =
      some (.error (.connectionExhausted 3 c4)) ∧
    ∀ s : WsState, (wsStep s .onOpen).retries = 0 :=
  ⟨rfl, fun _ => rfl⟩

/-- Claim C7: every unexpected close that schedules a reconnect (forced
disconnect off, no reconnect already scheduled, retry budget not exhausted)
schedules it after `500 * max(retries, 5)` time-units, `retries` being the
incremented retry number: constant 2500 for retry numbers 1 through 5, then
3000, 3500, 4000 for retry numbers 6, 7, 8. -/
theorem reconnect_delay (s : WsState) (code : Nat)
    (h1 : s.forceDisconnect = false) (h2 : s.isReconnecting = false)
    (h3 : (s.retries : Int) < s.maxRetries ∨ s.maxRetries = -1) :
    (wsStep s (.onClose code)).reconnectTimer =
      some (500 * max (s.retries + 1) 5) ∧
    (s.retries + 1 ≤ 5 → (wsStep s (.onClose code)).reconnectTimer = some 2500) ∧
    (s.retries + 1 = 6 → (wsStep s (.onClose code)).reconnectTimer = some 3000) ∧
    (s.retries + 1 = 7 → (wsStep s (.onClose code)).reconnectTimer = some 3500) ∧
    (s.retries + 1 = 8 → (wsStep s (.onClose code)).reconnectTimer = some 4000) := by
  have hmain : (wsStep s (.onClose code)).reconnectTimer =
      some (500 * max (s.retries + 1) 5) := by
    simp only [wsStep, h1, h2, if_pos h3, Bool.false_eq_true, if_false]
  refine ⟨hmain, fun h => ?_, fun h => ?_, fun h => ?_, fun h => ?_⟩
  · rw [hmain, Nat.max_def]; rw [if_pos h]
  · rw [hmain, h]; decide
  · rw [hmain, h]; decide
  · rw [hmain, h]; decide

/-- Witness for C7: a concrete fresh connect state with unlimited retries —
the first unexpected close schedules a reconnect after 2500 time-units. -/
theorem reconnect_delay_witness :
    (wsStep (onBeginStart (mkState none (some (-1)))) (.onClose 1006)).reconnectTimer =
      some 2500 :=
  (reconnect_delay (onBeginStart (mkState none (some (-1)))) 1006 rfl rfl
    (Or.inr (by decide))).2.1 (by decide)

/-- Claim C9: constructing the transport with `maxRetries = 0` yields the
default maximum 5, not 0 (the default is substituted for the falsy value 0,
and when the option is absent), while the sentinel `-1` — and every other
non-zero value — is preserved. -/
theorem maxRetries_default_on_zero :
    (mkState none (some 0)).maxRetries = 5 ∧
    (mkState none none).maxRetries = 5 ∧
    (mkState none (some (-1))).maxRetries = -1 ∧
    ∀ m : Int, m ≠ 0 → (mkState none (some m)).maxRetries = m := by
  refine ⟨rfl, rfl, rfl, fun m hm => ?_⟩
  simp [mkState, hm]

/-- Witness for C9: concrete values — 0 becomes 5, 7 stays 7. -/
theorem maxRetries_default_on_zero_witness :
    (mkState none (some 0)).maxRetries = 5 ∧ (mkState none (some 7)).maxRetries = 7 :=
  ⟨maxRetries_default_on_zero.1, maxRetries_default_on_zero.2.2.2 7 (by decide)⟩

/-! ## Authentication handler and request interceptor properties -/

/-- A concrete stand-in hash function for witnesses. -/
def hashSample : String → String := fun x => "h(" ++ x ++ ")"

/-- A concrete transport state with a hash function configured, a challenge
`{nonce 111, realm "shelly", nc 1}` captured and a derived user token. -/
def wsAuthSample : WsState :=
  { mkState (some hashSample) none with
    authFrame := some ⟨111, "shelly", 1⟩, userShaToken := "tok" }

/-- Claim C5: with a hash function configured and a challenge captured,
regenerating the auth block for a caller-supplied nonce count returns the
captured `nonce` and `realm`, the pre-increment `nc`, the (lazily
initialised) client nonce, the proof
`hashFn(join(':', userToken, nonce, nc, clientNonce, "auth",
hashFn("dummy_method:dummy_uri")))`, and the fixed `username: "admin"`
(the spec's role name) and `algorithm: "SHA-256"`; with no hash function
configured it fails with the missing-hash-function error, and with a hash
function but no challenge captured it fails with the missing-challenge
error. -/
theorem regenerateAuthFrames_spec (s : WsState) (fn : String → String)
    (f : AuthFrame) (nc now : Nat)
    (hfn : s.sha256Func = some fn) (hf : s.authFrame = some f) :
    regenerateAuthFrames s nc now =
      .ok ({ nonce := f.nonce, realm := f.realm, nc := nc,
             cnonce := if s.cnonce = 0 then now else s.cnonce,
             response := fn (String.intercalate ":"
               [s.userShaToken, toString f.nonce, toString nc,
                toString (if s.cnonce = 0 then now else s.cnonce), "auth",
                fn "dummy_method:dummy_uri"]),
             username := "admin", algorithm := "SHA-256" },
           { s with cnonce := if s.cnonce = 0 then now else s.cnonce }) ∧
    (∀ s' : WsState, s'.sha256Func = none →
      regenerateAuthFrames s' nc now = .error .missingHashFunction) ∧
    (∀ s' : WsState, s'.sha256Func.isSome = true → s'.authFrame = none →
      regenerateAuthFrames s' nc now = .error .missingChallenge) := by
  refine ⟨?_, fun s' h => ?_, fun s' h1 h2 => ?_⟩
  · simp [regenerateAuthFrames, hfn, hf, prepareAuthPartialFrame]
  · simp [regenerateAuthFrames, h]
  · obtain ⟨g, hg⟩ := Option.isSome_iff_exists.mp h1
    simp [regenerateAuthFrames, hg, h2]

/-- Witness for C5: the concrete state — regenerating with nonce count 7 at
clock reading 99 (initialising the client nonce to 99) yields the block with
the captured nonce/realm, the supplied count, and the digest-of-digest
proof. -/
theorem regenerateAuthFrames_spec_witness :
    regenerateAuthFrames wsAuthSample 7 99 =
      .ok ({ nonce := 111, realm := "shelly", nc := 7, cnonce := 99,
             response := hashSample (String.intercalate ":"
               ["tok", "111", "7", "99", "auth", hashSample "dummy_method:dummy_uri"]),
             username := "admin", algorithm := "SHA-256" },
           { wsAuthSample with cnonce := 99 }) :=
  (regenerateAuthFrames_spec wsAuthSample hashSample ⟨111, "shelly", 1⟩ 7 99 rfl rfl).1

/-- Counterexample to claim C8: `authenticate` does not fail exactly when no
hash function was configured — on a concrete state with a hash function
configured but no challenge captured, it still fails (with the
missing-challenge error). -/
theorem authenticate_fails_without_challenge :
    authenticate (mkState (some hashSample) none) "device-1" "pw" =
      .error .missingChallenge ∧
    (mkState (some hashSample) none).sha256Func.isSome = true := ⟨rfl, rfl⟩

/-- Claim C8 (amended): `authenticate(deviceId, password)` computes the user
secret token as `hashFn(join(':', 'admin', deviceId, password))` (awaiting
an asynchronous hash function transparently), but it fails in two cases, in
this order: with the missing-hash-function error when no hash function was
configured, and with the missing-challenge error when a hash function is
configured but no challenge frame has been captured yet. -/
theorem authenticate_semantics (s : WsState) (id pw : String) :
    (s.sha256Func = none → authenticate s id pw = .error .missingHashFunction) ∧
    (∀ fn, s.sha256Func = some fn → s.authFrame = none →
      authenticate s id pw = .error .missingChallenge) ∧
    (∀ fn f, s.sha256Func = some fn → s.authFrame = some f →
      authenticate s id pw =
        .ok { s with userShaToken := fn (String.intercalate ":" ["admin", id, pw]) }) := by
  refine ⟨fun h => ?_, fun fn h1 h2 => ?_, fun fn f h1 h2 => ?_⟩
  · simp [authenticate, h]
  · simp [authenticate, h1, h2]
  · simp [authenticate, h1, h2]

/-- Witness for C8 (amended): on the concrete authenticated state,
`authenticate` derives the token `hashFn("admin:dev:pw")`. -/
theorem authenticate_semantics_witness :
    authenticate wsAuthSample "dev" "pw" =
      .ok { wsAuthSample with userShaToken := hashSample "admin:dev:pw" } :=
  (authenticate_semantics wsAuthSample "dev" "pw").2.2 hashSample ⟨111, "shelly", 1⟩ rfl rfl

/-- Claim C3: every `rpcRequest` that reaches the delegated send (no
challenge on file, or the auth block regenerates without throwing) and fails
with a 401 whose body decodes into a valid challenge stores that challenge
verbatim — replacing any prior challenge — and leaves the caller's operation
pending forever: the returned promise never resolves and never rejects. -/
theorem rpc_401_captures_and_pends (s : WsState) (f : AuthFrame) (now : Nat)
    (hok : s.authFrame = none ∨ s.sha256Func.isSome = true) :
    (rpcRequest s (.failRpc 401 (some (some f))) now).result = .pending ∧
    (rpcRequest s (.failRpc 401 (some (some f))) now).state.authFrame = some f := by
  rcases hok with h | h
  · simp [rpcRequest, h, rpcDelegate]
  · cases hf : s.authFrame with
    | none => simp [rpcRequest, hf, rpcDelegate]
    | some f0 =>
      obtain ⟨fn, hfn⟩ := Option.isSome_iff_exists.mp h
      simp [rpcRequest, hf, regenerateAuthFrames, hfn, prepareAuthPartialFrame,
        rpcDelegate]

/-- Witness for C3: on the concrete authenticated state (which already has a
prior challenge on file), a 401 carrying challenge
`{nonce 222, realm "r2", nc 7}` leaves the call pending and replaces the
stored challenge with the new one. -/
theorem rpc_401_captures_and_pends_witness :
    (rpcRequest wsAuthSample (.failRpc 401 (some (some ⟨222, "r2", 7⟩))) 99).result =
      .pending ∧
    (rpcRequest wsAuthSample
        (.failRpc 401 (some (some ⟨222, "r2", 7⟩))) 99).state.authFrame =
      some ⟨222, "r2", 7⟩ :=
  rpc_401_captures_and_pends wsAuthSample ⟨222, "r2", 7⟩ 99 (Or.inr rfl)

/-- Claim C4: for every `rpcRequest` issued while a challenge is on file
(and a hash function is configured, so the auth block regenerates), the
attached auth block's nonce count equals the stored counter's value before
the increment; and whenever the call returns — resolves or rejects, as
opposed to the 401 branch's forever-pending promise — the stored counter is
greater by exactly 1. -/
theorem rpc_nc_pre_increment (s : WsState) (f : AuthFrame) (fn : String → String)
    (now : Nat) (outcome : ExtOutcome)
    (hf : s.authFrame = some f) (hfn : s.sha256Func = some fn) :
    (∃ b, (rpcRequest s outcome now).sentAuth = some b ∧ b.nc = f.nc) ∧
    ((rpcRequest s outcome now).result ≠ .pending →
      ∃ f', (rpcRequest s outcome now).state.authFrame = some f' ∧
        f'.nc = f.nc + 1) := by
  have hstep : rpcRequest s outcome now = rpcDelegate
      { s with authFrame := some { f with nc := f.nc + 1 },
               cnonce := if s.cnonce = 0 then now else s.cnonce }
      (some { nonce := f.nonce, realm := f.realm, nc := f.nc,
              cnonce := if s.cnonce = 0 then now else s.cnonce,
              response := fn (String.intercalate ":"
                [s.userShaToken, toString f.nonce, toString f.nc,
                 toString (if s.cnonce = 0 then now else s.cnonce), "auth",
                 fn "dummy_method:dummy_uri"]),
              username := "admin", algorithm := "SHA-256" })
      outcome := by
    simp [rpcRequest, hf, regenerateAuthFrames, hfn, prepareAuthPartialFrame]
  rw [hstep]
  cases outcome with
  | success => exact ⟨⟨_, rfl, rfl⟩, fun _ => ⟨_, rfl, rfl⟩⟩
  | failNonRpc => exact ⟨⟨_, rfl, rfl⟩, fun _ => ⟨_, rfl, rfl⟩⟩
  | failRpc code body =>
    by_cases hc : code = 401
    · subst hc
      cases body with
      | none =>
        simp only [rpcDelegate, if_pos rfl]
        exact ⟨⟨_, rfl, rfl⟩, fun _ => ⟨_, rfl, rfl⟩⟩
      | some payload =>
        cases payload with
        | none =>
          simp only [rpcDelegate, if_pos rfl]
          exact ⟨⟨_, rfl, rfl⟩, fun hne => absurd rfl hne⟩
        | some g =>
          simp only [rpcDelegate, if_pos rfl]
          exact ⟨⟨_, rfl, rfl⟩, fun hne => absurd rfl hne⟩
    · simp only [rpcDelegate, if_neg hc]
      exact ⟨⟨_, rfl, rfl⟩, fun _ => ⟨_, rfl, rfl⟩⟩

/-- Witness for C4: on the concrete authenticated state (stored counter 1),
a successful call goes out with nonce count 1 attached and leaves the stored
counter at 2. -/
theorem rpc_nc_pre_increment_witness :
    (∃ b, (rpcRequest wsAuthSample .success 99).sentAuth = some b ∧ b.nc = 1) ∧
    (∃ f', (rpcRequest wsAuthSample .success 99).state.authFrame = some f' ∧
      f'.nc = 2) :=
  ⟨(rpc_nc_pre_increment wsAuthSample ⟨111, "shelly", 1⟩ hashSample 99 .success
      rfl rfl).1,
   (rpc_nc_pre_increment wsAuthSample ⟨111, "shelly", 1⟩ hashSample 99 .success
      rfl rfl).2 (by decide)⟩
